import Mathlib

/-!
Verification development for the latency-aware websocket connection manager
(`primary_ws.py` / `healthcheck_ws.py`).

The Python classes `LatencyAwareWebsocket` (the primary manager) and
`HealthCheckWebsocket` (the health probe) are shallowly embedded as Lean
state-transformer functions.  Latencies are modelled in whole milliseconds
(`Nat`); the configuration thresholds in the source are integers and every
claim compares with `>=`, so nothing depends on fractional latencies.
Asynchronous calls that suspend on the network (awaiting
`websockets.connect`, awaiting the listen task, invoking the registered
`on_good_latency` callback) are cut at the suspension point: the embedding
applies the unconditional state updates that precede the await and emits an
`Event` recording which cross-component call was issued.  Logging calls are
evidently state-free and are omitted.
-/

namespace LatencyWS

/-- Status of an asyncio task slot (`self.ping_task` / `self.listen_task`):
the attribute may be absent (never created), hold a running task, or hold a
task that is already done (completed or cancelled). -/
inductive TaskStatus where
  | absent
  | running
  | done
deriving DecidableEq, Repr

/-- `task.cancel()` followed by awaiting the task: a running task becomes a
done (cancelled) task; an absent or already-done slot is left untouched
(both `cleanup_tasks` implementations guard with
`hasattr ... and task and not task.done()`). -/
def cancelTask : TaskStatus → TaskStatus
  | TaskStatus.running => TaskStatus.done
  | t => t

/-- Probe outcome seen by `ping_pong`: a pong with its measured round-trip
latency in ms, a timeout of the pong waiter, or any other exception from the
transport. -/
inductive ProbeResult where
  | pong (latencyMs : Nat)
  | timeout
  | error
deriving DecidableEq, Repr

/-- Cross-component calls issued at the embedding's cut points. -/
inductive Event where
  /-- `HealthCheckWebsocket.connect()` was invoked. -/
  | healthConnect
  /-- `HealthCheckWebsocket.terminate()` was invoked. -/
  | healthTerminate
  /-- `LatencyAwareWebsocket.connect()` was invoked. -/
  | primaryConnect
  /-- the registered `on_good_latency` callback was invoked. -/
  | goodLatencyCallback
deriving DecidableEq, Repr

/-! ## The sliding latency window

Both classes carry a `bandwidth_window : list[bool]` (`True` = bad sample)
and manipulate it with textually identical code; the window-level fragments
are defined once over `List Bool`. -/

/-- `slide_window` (primary_ws.py lines 182-185, healthcheck_ws.py lines
149-152): `if self.bandwidth_window: self.bandwidth_window.pop(0)` — drop
the oldest measurement if the window is nonempty. -/
def slide_window : List Bool → List Bool
  | [] => []
  | _ :: rest => rest

/-- The window-mutation fragment of `handle_new_latency` (primary_ws.py
lines 169-171, healthcheck_ws.py lines 131-133):
`self.bandwidth_window.append(res)` then
`if len(self.bandwidth_window) > self.window_sz: self.slide_window()`. -/
def recordOutcome (window_sz : Nat) (w : List Bool) (res : Bool) : List Bool :=
  let appended := w ++ [res]
  if appended.length > window_sz then slide_window appended else appended

/-- Record a whole sequence of outcomes, oldest first. -/
def recordAll (window_sz : Nat) (w : List Bool) : List Bool → List Bool
  | [] => w
  | r :: rs => recordAll window_sz (recordOutcome window_sz w r) rs

/-- `LatencyAwareWebsocket.is_window_bad` (primary_ws.py lines 176-180):
only a full window has a verdict; `bad_count = sum(1 for m in w if m)`
compared with `>= min_bad_count`. -/
def is_window_bad (window_sz min_bad_count : Nat) (w : List Bool) : Bool :=
  if w.length = window_sz then decide (min_bad_count ≤ w.count true) else false

/-- `HealthCheckWebsocket.is_window_good` (healthcheck_ws.py lines 143-147):
only a full window has a verdict; `good_count = sum(1 for m in w if not m)`
compared with `>= min_good_count`. -/
def is_window_good (window_sz min_good_count : Nat) (w : List Bool) : Bool :=
  if w.length = window_sz then decide (min_good_count ≤ w.count false) else false

/-! ## State of the two manager objects -/

/-- Mutable state plus configuration of a `LatencyAwareWebsocket`
(primary_ws.py lines 12-47).  The `uri`, the logger and the raw connection
handle carry no decision-relevant state and are not modelled; the
`healthcheck_socket` attribute is always set by `__init__`, so the truthiness
test `getattr(self, 'healthcheck_socket', None)` in `close` is always true
and the guard reduces to `maintain_healthcheck`. -/
structure PState where
  retry_connection : Bool
  max_retry_attempts : Nat
  good_latency_threshold : Nat
  window_sz : Nat
  min_bad_count : Nat
  connection_timeout : Nat
  maintain_healthcheck : Bool
  retry_attempts : Nat
  is_connected : Bool
  bandwidth_window : List Bool
  ping_task : TaskStatus
  listen_task : TaskStatus
deriving DecidableEq, Repr

/-- Mutable state plus configuration of a `HealthCheckWebsocket`
(healthcheck_ws.py lines 7-33).  `has_on_good_latency` models whether an
`on_good_latency` callback was registered (truthiness test at line 120). -/
structure HState where
  good_latency_threshold : Nat
  window_sz : Nat
  min_good_count : Nat
  has_on_good_latency : Bool
  retry_attempts : Nat
  is_connected : Bool
  bandwidth_window : List Bool
  attempt_retry : Bool
  ping_task : TaskStatus
  listen_task : TaskStatus
deriving DecidableEq, Repr

/-- Combined state: the primary manager and the health probe it owns. -/
structure Sys where
  primary : PState
  health : HState
deriving DecidableEq, Repr

/-! ## HealthCheckWebsocket operations -/

/-- `HealthCheckWebsocket.cleanup_tasks` (healthcheck_ws.py lines 157-176):
cancel and await each of the two tasks if present and not done.  (The
`self.ping_task = None` assignments inside the `try` bodies are dead code:
awaiting a just-cancelled task raises `CancelledError` before they run, so
the slot keeps the done task.) -/
def HState.cleanup_tasks (h : HState) : HState :=
  { h with ping_task := cancelTask h.ping_task,
           listen_task := cancelTask h.listen_task }

/-- `HealthCheckWebsocket.terminate` (healthcheck_ws.py lines 178-180):
`self.attempt_retry = False` then `await self.cleanup_tasks()`. -/
def HState.terminate (h : HState) : HState :=
  HState.cleanup_tasks { h with attempt_retry := false }

/-- `HealthCheckWebsocket.close` (healthcheck_ws.py lines 93-100): if
connected, await `wait_closed` bounded by 2 s (the timeout branch only
logs) and clear `is_connected`. -/
def HState.close (h : HState) : HState :=
  if h.is_connected then { h with is_connected := false } else h

/-- The unconditional first statement of `HealthCheckWebsocket.connect`
(healthcheck_ws.py line 37): `self.attempt_retry = True`.  The rest of
`connect` suspends on the network; the embedding cuts there and the caller
emits `Event.healthConnect`. -/
def HState.connect_entry (h : HState) : HState :=
  { h with attempt_retry := true }

/-- The success path of `HealthCheckWebsocket.connect` (healthcheck_ws.py
lines 37-44) up to `await self.listen_task`: retry re-enabled, attempt
counter cleared, connected, window explicitly reset to empty, both tasks
started. -/
def HState.connect_success (h : HState) : HState :=
  { h with attempt_retry := true, retry_attempts := 0, is_connected := true,
           bandwidth_window := [],
           ping_task := TaskStatus.running, listen_task := TaskStatus.running }

/-- `HealthCheckWebsocket.handle_good_window` (healthcheck_ws.py lines
118-121): invoke the registered `on_good_latency` callback if any.  The
callback re-enters the primary manager; the embedding cuts there and
records the invocation as an event. -/
def HState.handle_good_window (h : HState) : HState × List Event :=
  if h.has_on_good_latency then (h, [Event.goodLatencyCallback]) else (h, [])

/-- `HealthCheckWebsocket.handle_bad_window` (healthcheck_ws.py lines
123-127): `cleanup_tasks`, `close`, then start `connect()` from scratch
(cut at the network await, after `connect`'s entry assignment). -/
def HState.handle_bad_window (h : HState) : HState × List Event :=
  (HState.connect_entry (HState.close (HState.cleanup_tasks h)), [Event.healthConnect])

/-- `HealthCheckWebsocket.handle_new_latency` (healthcheck_ws.py lines
129-141): append the sample, slide if over capacity, then — only on a full
window — branch on `is_window_good` into `handle_good_window` or
`handle_bad_window`. -/
def HState.handle_new_latency (res : Bool) (h : HState) : HState × List Event :=
  let h1 : HState :=
    { h with bandwidth_window := recordOutcome h.window_sz h.bandwidth_window res }
  if h1.bandwidth_window.length = h1.window_sz then
    if is_window_good h1.window_sz h1.min_good_count h1.bandwidth_window then
      HState.handle_good_window h1
    else
      HState.handle_bad_window h1
  else (h1, [])

/-- `HealthCheckWebsocket.ping_pong` (healthcheck_ws.py lines 102-116):
no-op unless connected; a pong is classified bad iff
`latency >= good_latency_threshold`; a timeout is recorded as bad
unconditionally; any other exception is logged and nothing is recorded. -/
def HState.ping_pong (r : ProbeResult) (h : HState) : HState × List Event :=
  if h.is_connected then
    match r with
    | ProbeResult.pong latencyMs =>
        HState.handle_new_latency (decide (h.good_latency_threshold ≤ latencyMs)) h
    | ProbeResult.timeout => HState.handle_new_latency true h
    | ProbeResult.error => (h, [])
  else (h, [])

/-! ## LatencyAwareWebsocket operations

The primary's `close` reaches into the health probe (it invokes
`self.healthcheck_socket.connect()`), so the primary's transformers act on
the combined `Sys` state.  `close`'s `wait_closed` outcome (`waitTimedOut`)
is threaded through because the source awaits it with a 2 s bound; its
timeout branch only logs, so the resulting state is the same either way —
this is proved, not assumed, by the theorems below. -/

/-- `LatencyAwareWebsocket.cleanup_tasks` (primary_ws.py lines 103-119):
cancel and await each of the two tasks if present and not done. -/
def PState.cleanup_tasks (p : PState) : PState :=
  { p with ping_task := cancelTask p.ping_task,
           listen_task := cancelTask p.listen_task }

/-- `LatencyAwareWebsocket.refresh_state` (primary_ws.py lines 190-194):
reset the attempt counter, mark disconnected, re-enable retry, clear the
latency window. -/
def PState.refresh_state (p : PState) : PState :=
  { p with retry_attempts := 0, is_connected := false,
           retry_connection := true, bandwidth_window := [] }

/-- The success path of `LatencyAwareWebsocket.connect` (primary_ws.py
lines 51-58) up to `await self.listen_task`: attempt counter cleared,
connected, both tasks started.  Note: unlike the health probe's `connect`,
the primary's does NOT touch `bandwidth_window`. -/
def Sys.primary_connect_success (sys : Sys) : Sys :=
  { sys with primary :=
      { sys.primary with retry_attempts := 0, is_connected := true,
                         ping_task := TaskStatus.running,
                         listen_task := TaskStatus.running } }

/-- `LatencyAwareWebsocket.close` (primary_ws.py lines 121-134): if
connected, await `wait_closed` bounded by 2 s (`waitTimedOut` tells which
way that await ended; the timeout branch only logs) and mark disconnected;
always `cleanup_tasks`; if `maintain_healthcheck` is set (the
`healthcheck_socket` attribute is always truthy, see `PState`), invoke the
health probe's `connect()` — cut at its network await. -/
def Sys.close (waitTimedOut : Bool) (sys : Sys) : Sys × List Event :=
  let _ := waitTimedOut
  let p1 := if sys.primary.is_connected
            then { sys.primary with is_connected := false } else sys.primary
  let p2 := PState.cleanup_tasks p1
  if p2.maintain_healthcheck then
    ({ primary := p2, health := HState.connect_entry sys.health },
     [Event.healthConnect])
  else
    ({ sys with primary := p2 }, [])

/-- `LatencyAwareWebsocket.handle_bad_window` (primary_ws.py lines 155-159):
disable further retry; if connected, `close()` (which tears the session
down and starts the health probe). -/
def Sys.handle_bad_window (waitTimedOut : Bool) (sys : Sys) : Sys × List Event :=
  let sys1 : Sys := { sys with primary := { sys.primary with retry_connection := false } }
  if sys1.primary.is_connected then Sys.close waitTimedOut sys1 else (sys1, [])

/-- `LatencyAwareWebsocket.handle_new_latency` (primary_ws.py lines
167-174): append the sample, slide if over capacity, then if
`is_window_bad()` trigger `handle_bad_window`. -/
def Sys.handle_new_latency (waitTimedOut : Bool) (res : Bool) (sys : Sys) :
    Sys × List Event :=
  let p1 : PState :=
    { sys.primary with
        bandwidth_window :=
          recordOutcome sys.primary.window_sz sys.primary.bandwidth_window res }
  let sys1 : Sys := { sys with primary := p1 }
  if is_window_bad p1.window_sz p1.min_bad_count p1.bandwidth_window then
    Sys.handle_bad_window waitTimedOut sys1
  else (sys1, [])

/-- `LatencyAwareWebsocket.ping_pong` (primary_ws.py lines 138-153): no-op
unless connected; a pong is classified bad iff
`latency >= good_latency_threshold`; a timeout is recorded as bad
unconditionally; any other exception is logged and nothing is recorded. -/
def Sys.ping_pong (waitTimedOut : Bool) (r : ProbeResult) (sys : Sys) :
    Sys × List Event :=
  if sys.primary.is_connected then
    match r with
    | ProbeResult.pong latencyMs =>
        Sys.handle_new_latency waitTimedOut
          (decide (sys.primary.good_latency_threshold ≤ latencyMs)) sys
    | ProbeResult.timeout => Sys.handle_new_latency waitTimedOut true sys
    | ProbeResult.error => (sys, [])
  else (sys, [])

/-- One `ping_loop` iteration per listed probe result (primary_ws.py lines
85-89 drive `ping_pong` while connected; `ping_pong` itself re-checks
`is_connected`, so iterations after a teardown are no-ops, exactly as in
the source).  Events are concatenated in order. -/
def Sys.runProbes (waitTimedOut : Bool) : Sys → List ProbeResult → Sys × List Event
  | sys, [] => (sys, [])
  | sys, r :: rs =>
    let step := Sys.ping_pong waitTimedOut r sys
    let rest := Sys.runProbes waitTimedOut step.1 rs
    (rest.1, step.2 ++ rest.2)

/-- `LatencyAwareWebsocket.on_detect_good_latency` (primary_ws.py lines
197-202), the health probe's recovery callback target: `refresh_state()`,
then `terminate()` the health probe (the attribute is always truthy), then
re-issue `connect()` — cut at the connect call, recorded as the final
event. -/
def Sys.on_detect_good_latency (sys : Sys) : Sys × List Event :=
  ({ primary := PState.refresh_state sys.primary,
     health := HState.terminate sys.health },
   [Event.healthTerminate, Event.primaryConnect])

/-- The guard of `LatencyAwareWebsocket.handle_retry` (primary_ws.py lines
91-100) under which a fresh automatic `connect()` is issued: not connected,
retry enabled, and attempts below the bound. -/
def PState.handle_retry_retries (p : PState) : Bool :=
  !p.is_connected && p.retry_connection
    && decide (p.retry_attempts < p.max_retry_attempts)

/-- The retry loop of `connect`/`handle_retry` (primary_ws.py lines 49-100)
specialised to an environment in which every connection attempt fails
(`websockets.connect` raises or times out, so the success branch never
runs and `is_connected` is never set): each failed attempt lands in
`handle_retry`, which — when its guard holds — runs `cleanup_tasks`,
increments `retry_attempts` and recurses into `connect()`.  Returns the
final state and the total number of `connect()` invocations. -/
def PState.connectAllFail (p : PState) : PState × Nat :=
  if h : PState.handle_retry_retries p = true then
    let p1 := PState.cleanup_tasks p
    let p2 : PState := { p1 with retry_attempts := p1.retry_attempts + 1 }
    let rest := PState.connectAllFail p2
    (rest.1, rest.2 + 1)
  else (p, 1)
termination_by p.max_retry_attempts - p.retry_attempts
decreasing_by
  simp only [PState.handle_retry_retries, Bool.and_eq_true, decide_eq_true_eq] at h
  simp only [PState.cleanup_tasks]
  omega

/-! ## Concrete states at the source's default configuration
(primary_ws.py lines 14-24, healthcheck_ws.py lines 9-17, matching the
spec's configuration surface). -/

/-- A `LatencyAwareWebsocket` right after `__init__` at default
configuration (primary_ws.py lines 26-40): retry enabled, 3 max attempts,
200 ms threshold, window size 10, min bad count 7, 5 s connection timeout,
healthcheck maintained; counter zero, disconnected, empty window, no
tasks. -/
def initPrimary : PState where
  retry_connection := true
  max_retry_attempts := 3
  good_latency_threshold := 200
  window_sz := 10
  min_bad_count := 7
  connection_timeout := 5
  maintain_healthcheck := true
  retry_attempts := 0
  is_connected := false
  bandwidth_window := []
  ping_task := TaskStatus.absent
  listen_task := TaskStatus.absent

/-- A `HealthCheckWebsocket` right after `__init__` at default
configuration with a registered `on_good_latency` callback
(healthcheck_ws.py lines 19-32, as constructed by the primary at
primary_ws.py lines 42-47). -/
def initHealth : HState where
  good_latency_threshold := 200
  window_sz := 10
  min_good_count := 7
  has_on_good_latency := true
  retry_attempts := 0
  is_connected := false
  bandwidth_window := []
  attempt_retry := true
  ping_task := TaskStatus.absent
  listen_task := TaskStatus.absent

/-- The combined system right after construction. -/
def initSys : Sys where
  primary := initPrimary
  health := initHealth

/-- The system after the primary's `connect()` succeeds. -/
def connectedSys : Sys := Sys.primary_connect_success initSys

/-- Scenario B's probe results: probes 1-7 bad (timeouts), probes 8-10
good (50 ms pongs, under the 200 ms threshold). -/
def scenarioB : List ProbeResult :=
  List.replicate 7 ProbeResult.timeout ++ List.replicate 3 (ProbeResult.pong 50)

/-! ## Supporting lemmas on the window -/

theorem slide_window_length (w : List Bool) :
    (slide_window w).length = w.length - 1 := by
  cases w <;> simp [slide_window]

theorem recordOutcome_length (sz : Nat) (w : List Bool) (r : Bool) :
    (recordOutcome sz w r).length =
      if w.length + 1 > sz then w.length else w.length + 1 := by
  simp only [recordOutcome, List.length_append, List.length_cons,
    List.length_nil, Nat.zero_add]
  split <;> simp_all [slide_window_length]

theorem recordOutcome_length_le (sz : Nat) (w : List Bool) (r : Bool)
    (hw : w.length ≤ sz) : (recordOutcome sz w r).length ≤ sz := by
  rw [recordOutcome_length]
  split <;> omega

theorem recordAll_length_le (sz : Nat) (rs : List Bool) :
    ∀ w : List Bool, w.length ≤ sz → (recordAll sz w rs).length ≤ sz := by
  induction rs with
  | nil => intro w hw; simpa [recordAll] using hw
  | cons r rs ih =>
      intro w hw
      exact ih _ (recordOutcome_length_le sz w r hw)

theorem recordAll_append_of_le (sz : Nat) (rs : List Bool) :
    ∀ w : List Bool, w.length + rs.length ≤ sz →
      recordAll sz w rs = w ++ rs := by
  induction rs with
  | nil => intro w _; simp [recordAll]
  | cons r rs ih =>
      intro w hw
      simp only [List.length_cons] at hw
      have hlt : ¬ (w.length + 1 > sz) := by omega
      have hrec : recordOutcome sz w r = w ++ [r] := by
        simp only [recordOutcome, List.length_append, List.length_cons,
          List.length_nil, Nat.zero_add, if_neg hlt]
      simp only [recordAll, hrec]
      rw [ih (w ++ [r]) (by simp; omega)]
      simp

theorem recordAll_length_eq (sz : Nat) (rs : List Bool) (w : List Bool)
    (hw : w.length + rs.length ≤ sz) :
    (recordAll sz w rs).length = w.length + rs.length := by
  rw [recordAll_append_of_le sz rs w hw]; simp

theorem is_window_bad_of_ne (sz c : Nat) (w : List Bool)
    (h : w.length ≠ sz) : is_window_bad sz c w = false := by
  simp [is_window_bad, h]

theorem is_window_good_of_ne (sz g : Nat) (w : List Bool)
    (h : w.length ≠ sz) : is_window_good sz g w = false := by
  simp [is_window_good, h]

theorem count_false_add_count_true (w : List Bool) :
    w.count false + w.count true = w.length := by
  induction w with
  | nil => simp
  | cons b w ih =>
      cases b <;> simp [List.count_cons, ih] <;> omega

/-! ## Claim theorems -/

/-- C1, counterexample to the claim as stated.  In scenario B (primary
connected, defaults `windowSize = 10`, `minBadCount = 7`; probes 1-7 bad)
the claim asserts failover is triggered at the moment the 7th bad sample
is recorded.  In fact after the first 7 probes no failover has happened:
no `HealthProbe.connect` was issued, retry is still enabled, the session
is still connected, and the window — holding 7 bad samples — is not judged
bad because it is not yet full. -/
theorem c1_no_failover_at_probe7 :
    (Sys.runProbes false connectedSys (scenarioB.take 7)).2 = [] ∧
    (Sys.runProbes false connectedSys (scenarioB.take 7)).1.primary.retry_connection = true ∧
    (Sys.runProbes false connectedSys (scenarioB.take 7)).1.primary.is_connected = true ∧
    (Sys.runProbes false connectedSys (scenarioB.take 7)).1.primary.bandwidth_window
      = List.replicate 7 true ∧
    is_window_bad 10 7
      (Sys.runProbes false connectedSys (scenarioB.take 7)).1.primary.bandwidth_window
      = false := by
  constructor
  · rfl
  constructor
  · rfl
  constructor
  · rfl
  constructor
  · rfl
  · rfl

/-- C1, amended: in scenario B the bad-count reaches 7 at probe 7 but the
window is only full at probe 10, so failover (disable retry, tear down the
session, start the HealthProbe) triggers exactly once, at the moment the
10th sample is recorded — the first probe at which the window is full —
and not earlier: after 9 probes no failover event has fired, after 10
exactly one `HealthProbe.connect` has been issued, retry is disabled, the
session is torn down (disconnected, both tasks cancelled) and the health
probe's retry flag is set by its `connect` entry. -/
theorem c1_failover_at_probe10 :
    (Sys.runProbes false connectedSys (scenarioB.take 9)).2 = [] ∧
    (Sys.runProbes false connectedSys scenarioB).2 = [Event.healthConnect] ∧
    (Sys.runProbes false connectedSys scenarioB).1.primary.retry_connection = false ∧
    (Sys.runProbes false connectedSys scenarioB).1.primary.is_connected = false ∧
    (Sys.runProbes false connectedSys scenarioB).1.primary.ping_task = TaskStatus.done ∧
    (Sys.runProbes false connectedSys scenarioB).1.primary.listen_task = TaskStatus.done ∧
    (Sys.runProbes false connectedSys scenarioB).1.health.attempt_retry = true := by
  refine ⟨rfl, rfl, rfl, rfl, rfl, rfl, rfl⟩

/-- C2, confirmed: recording preserves the capacity bound (one step, and
along any whole sequence recorded from the empty window), and while fewer
than `windowSize` samples have been recorded since the last reset neither
the unhealthy verdict (`is_window_bad`) nor the healthy verdict
(`is_window_good`) is reported — the window has no verdict. -/
theorem c2_window_invariant (sz c g : Nat) (r : Bool) (w rs : List Bool)
    (hw : w.length ≤ sz) :
    (recordOutcome sz w r).length ≤ sz ∧
    (recordAll sz [] rs).length ≤ sz ∧
    (rs.length < sz →
      is_window_bad sz c (recordAll sz [] rs) = false ∧
      is_window_good sz g (recordAll sz [] rs) = false) := by
  refine ⟨recordOutcome_length_le sz w r hw, recordAll_length_le sz rs [] (by simp), ?_⟩
  intro hlt
  have hlen : (recordAll sz [] rs).length = rs.length := by
    simpa using recordAll_length_eq sz rs [] (by simp; omega)
  have hne : (recordAll sz [] rs).length ≠ sz := by omega
  exact ⟨is_window_bad_of_ne sz c _ hne, is_window_good_of_ne sz g _ hne⟩

/-- Witness for `c2_window_invariant` at `sz = 10`, `c = g = 7`,
`w = [true, false]`, `rs = [true, true, false]`. -/
theorem c2_window_invariant_witness :
    ([true, false] : List Bool).length ≤ 10 ∧
    ((recordOutcome 10 [true, false] true).length ≤ 10 ∧
     (recordAll 10 [] [true, true, false]).length ≤ 10 ∧
     (([true, true, false] : List Bool).length < 10 →
       is_window_bad 10 7 (recordAll 10 [] [true, true, false]) = false ∧
       is_window_good 10 7 (recordAll 10 [] [true, true, false]) = false)) :=
  ⟨by decide,
   c2_window_invariant 10 7 7 true [true, false] [true, true, false] (by decide)⟩

/-- C3, confirmed: recording any 10 outcomes into a fresh size-10 window
yields exactly that sequence, and with threshold count 7 the verdict
depends only on the counts — any order with 7 bad yields `Unhealthy`
(`is_window_bad = true`), any order with 6 bad yields not `Unhealthy`;
the threshold comparison is `>=` (`7 ≤ badCount`), and the good-count
equals `windowSize` minus the bad-count. -/
theorem c3_verdict_counts (rs : List Bool) (hlen : rs.length = 10) :
    recordAll 10 [] rs = rs ∧
    (rs.count true = 7 → is_window_bad 10 7 rs = true) ∧
    (rs.count true = 6 → is_window_bad 10 7 rs = false) ∧
    rs.count false = 10 - rs.count true ∧
    is_window_bad 10 7 rs = decide (7 ≤ rs.count true) ∧
    is_window_good 10 7 rs = decide (7 ≤ 10 - rs.count true) := by
  have hcounts := count_false_add_count_true rs
  rw [hlen] at hcounts
  have hbad : is_window_bad 10 7 rs = decide (7 ≤ rs.count true) := by
    simp [is_window_bad, hlen]
  have hgoodcount : rs.count false = 10 - rs.count true := by omega
  refine ⟨?_, ?_, ?_, hgoodcount, hbad, ?_⟩
  · exact recordAll_append_of_le 10 rs [] (by simp [hlen])
  · intro h7; rw [hbad, h7]; decide
  · intro h6; rw [hbad, h6]; decide
  · simp [is_window_good, hlen, hgoodcount]

/-- Witness for `c3_verdict_counts` at the sequence of 7 bad samples
followed by 3 good ones. -/
theorem c3_verdict_counts_witness :
    (List.replicate 7 true ++ List.replicate 3 false).length = 10 ∧
    (recordAll 10 [] (List.replicate 7 true ++ List.replicate 3 false)
        = List.replicate 7 true ++ List.replicate 3 false ∧
     ((List.replicate 7 true ++ List.replicate 3 false).count true = 7 →
       is_window_bad 10 7 (List.replicate 7 true ++ List.replicate 3 false) = true) ∧
     ((List.replicate 7 true ++ List.replicate 3 false).count true = 6 →
       is_window_bad 10 7 (List.replicate 7 true ++ List.replicate 3 false) = false) ∧
     (List.replicate 7 true ++ List.replicate 3 false).count false
        = 10 - (List.replicate 7 true ++ List.replicate 3 false).count true ∧
     is_window_bad 10 7 (List.replicate 7 true ++ List.replicate 3 false)
        = decide (7 ≤ (List.replicate 7 true ++ List.replicate 3 false).count true) ∧
     is_window_good 10 7 (List.replicate 7 true ++ List.replicate 3 false)
        = decide (7 ≤ 10 - (List.replicate 7 true ++ List.replicate 3 false).count true)) :=
  ⟨by decide, c3_verdict_counts (List.replicate 7 true ++ List.replicate 3 false) (by decide)⟩

theorem cancelTask_idem (t : TaskStatus) :
    cancelTask (cancelTask t) = cancelTask t := by
  cases t <;> rfl

theorem cancelTask_eq_of_not_running (t : TaskStatus)
    (h : t ≠ TaskStatus.running) : cancelTask t = t := by
  cases t <;> simp_all [cancelTask]

theorem Sys.close_window (wt : Bool) (sys : Sys) :
    (Sys.close wt sys).1.primary.bandwidth_window
      = sys.primary.bandwidth_window := by
  simp only [Sys.close, PState.cleanup_tasks]
  split <;> split <;> rfl

theorem Sys.handle_bad_window_window (wt : Bool) (sys : Sys) :
    (Sys.handle_bad_window wt sys).1.primary.bandwidth_window
      = sys.primary.bandwidth_window := by
  simp only [Sys.handle_bad_window]
  split
  · exact Sys.close_window wt _
  · rfl

theorem Sys.handle_new_latency_window (wt : Bool) (res : Bool) (sys : Sys) :
    (Sys.handle_new_latency wt res sys).1.primary.bandwidth_window
      = recordOutcome sys.primary.window_sz sys.primary.bandwidth_window res := by
  simp only [Sys.handle_new_latency]
  split
  · exact Sys.handle_bad_window_window wt _
  · rfl

theorem HState.handle_bad_window_keeps_window (h : HState) :
    (HState.handle_bad_window h).1.bandwidth_window = h.bandwidth_window := by
  simp only [HState.handle_bad_window, HState.connect_entry, HState.close,
    HState.cleanup_tasks]
  split <;> rfl

theorem HState.handle_new_latency_records (res : Bool) (h : HState) :
    (HState.handle_new_latency res h).1.bandwidth_window
      = recordOutcome h.window_sz h.bandwidth_window res := by
  simp only [HState.handle_new_latency]
  split
  · split
    · simp only [HState.handle_good_window]
      split <;> rfl
    · exact HState.handle_bad_window_keeps_window _
  · rfl

/-- C4, counterexample to the claim as stated.  Starting from a primary
whose window still holds three earlier samples (as after a disconnect
mid-session), a successful `connect()` leaves those samples in place: the
primary's `connect` contains no window reset, so samples recorded before
the reconnect survive into the new session's window. -/
theorem c4_primary_connect_keeps_window :
    (Sys.primary_connect_success
        { primary := { initPrimary with bandwidth_window := [true, true, true] },
          health := initHealth }).primary.is_connected = true ∧
    (Sys.primary_connect_success
        { primary := { initPrimary with bandwidth_window := [true, true, true] },
          health := initHealth }).primary.bandwidth_window = [true, true, true] ∧
    ([true, true, true] : List Bool) ≠ [] := by
  refine ⟨rfl, rfl, by decide⟩

/-- C4, amended: the primary manager's `connect()` leaves the latency
window untouched — samples recorded before a reconnect survive into the
new session; the primary's window is emptied only by `refresh_state()`
(the recovery handoff).  The health probe's `connect()`, by contrast, does
explicitly reset its window to empty on success. -/
theorem c4_window_reset_paths (sys : Sys) (h : HState) (p : PState) :
    (Sys.primary_connect_success sys).primary.bandwidth_window
      = sys.primary.bandwidth_window ∧
    (HState.connect_success h).bandwidth_window = [] ∧
    (PState.refresh_state p).bandwidth_window = [] :=
  ⟨rfl, rfl, rfl⟩

/-- C5, confirmed: while connected, a probe timeout is always recorded in
the window as a bad sample (for the primary and for the health probe
alike), and a non-timeout probe error records nothing — the whole state is
left unchanged and no cross-component call is made. -/
theorem c5_timeout_recorded_error_dropped (sys : Sys) (h : HState) (wt : Bool)
    (hp : sys.primary.is_connected = true) (hh : h.is_connected = true) :
    (Sys.ping_pong wt ProbeResult.timeout sys).1.primary.bandwidth_window
      = recordOutcome sys.primary.window_sz sys.primary.bandwidth_window true ∧
    Sys.ping_pong wt ProbeResult.error sys = (sys, []) ∧
    (HState.ping_pong ProbeResult.timeout h).1.bandwidth_window
      = recordOutcome h.window_sz h.bandwidth_window true ∧
    HState.ping_pong ProbeResult.error h = (h, []) := by
  refine ⟨?_, ?_, ?_, ?_⟩
  · simp only [Sys.ping_pong, hp, if_true]
    exact Sys.handle_new_latency_window wt true sys
  · simp [Sys.ping_pong, hp]
  · simp only [HState.ping_pong, hh, if_true]
    exact HState.handle_new_latency_records true h
  · simp [HState.ping_pong, hh]

/-- Witness for `c5_timeout_recorded_error_dropped` at the connected
default system and a freshly connected health probe. -/
theorem c5_timeout_recorded_error_dropped_witness :
    connectedSys.primary.is_connected = true ∧
    (HState.connect_success initHealth).is_connected = true ∧
    ((Sys.ping_pong false ProbeResult.timeout connectedSys).1.primary.bandwidth_window
       = recordOutcome connectedSys.primary.window_sz
           connectedSys.primary.bandwidth_window true ∧
     Sys.ping_pong false ProbeResult.error connectedSys = (connectedSys, []) ∧
     (HState.ping_pong ProbeResult.timeout
         (HState.connect_success initHealth)).1.bandwidth_window
       = recordOutcome (HState.connect_success initHealth).window_sz
           (HState.connect_success initHealth).bandwidth_window true ∧
     HState.ping_pong ProbeResult.error (HState.connect_success initHealth)
       = (HState.connect_success initHealth, [])) :=
  ⟨rfl, rfl,
   c5_timeout_recorded_error_dropped connectedSys
     (HState.connect_success initHealth) false rfl rfl⟩

/-- C6, confirmed: `terminate()` is idempotent — a second call right after
a first changes nothing further — and `terminate()` on an idle probe (no
task running) only clears the retry flag, leaving all other state
untouched. -/
theorem c6_terminate_idempotent (h : HState) :
    HState.terminate (HState.terminate h) = HState.terminate h ∧
    (h.ping_task ≠ TaskStatus.running → h.listen_task ≠ TaskStatus.running →
      HState.terminate h = { h with attempt_retry := false }) := by
  constructor
  · simp [HState.terminate, HState.cleanup_tasks, cancelTask_idem]
  · intro hping hlisten
    simp [HState.terminate, HState.cleanup_tasks,
      cancelTask_eq_of_not_running _ hping,
      cancelTask_eq_of_not_running _ hlisten]

/-- Witness for `c6_terminate_idempotent` at the idle default probe. -/
theorem c6_terminate_idempotent_witness :
    initHealth.ping_task ≠ TaskStatus.running ∧
    initHealth.listen_task ≠ TaskStatus.running ∧
    (HState.terminate (HState.terminate initHealth) = HState.terminate initHealth ∧
     (initHealth.ping_task ≠ TaskStatus.running →
       initHealth.listen_task ≠ TaskStatus.running →
       HState.terminate initHealth = { initHealth with attempt_retry := false })) :=
  ⟨by decide, by decide, c6_terminate_idempotent initHealth⟩

/-- C7, confirmed: the recovery callback `on_detect_good_latency` runs
`refresh_state` (attempt counter to zero, retry re-enabled, window
emptied) and terminates the health probe (its retry flag cleared), and
only then re-issues `connect()`: at the cut just before the connect
attempt begins the attempt counter is zero and the window is empty, and
the emitted call sequence is `terminate` followed by `connect`. -/
theorem c7_recovery_handoff (sys : Sys) :
    (Sys.on_detect_good_latency sys).1.primary.retry_attempts = 0 ∧
    (Sys.on_detect_good_latency sys).1.primary.retry_connection = true ∧
    (Sys.on_detect_good_latency sys).1.primary.bandwidth_window = [] ∧
    (Sys.on_detect_good_latency sys).1.health.attempt_retry = false ∧
    (Sys.on_detect_good_latency sys).2
      = [Event.healthTerminate, Event.primaryConnect] :=
  ⟨rfl, rfl, rfl, rfl, rfl⟩

/-- Evaluation of the all-attempts-fail retry loop at the default
configuration: the initial `connect()` plus the 3 retries make 4 failed
attempts in total, ending with the attempt counter at its bound. -/
theorem connectAllFail_init_eval :
    PState.connectAllFail initPrimary = ({ initPrimary with retry_attempts := 3 }, 4) := by
  simp [PState.connectAllFail, PState.handle_retry_retries, PState.cleanup_tasks,
    initPrimary, cancelTask]

/-- C8, counterexample to the claim as stated.  With `retryEnabled` and
`maxRetryAttempts = 3`, when every connection attempt fails the manager
performs 4 `connect()` invocations, not 3: after the 3rd consecutive
failure the attempt counter is still below the bound, so a further
automatic connect attempt is issued before the manager settles. -/
theorem c8_fourth_attempt_after_three_failures :
    (PState.connectAllFail initPrimary).2 = 4 ∧
    (PState.connectAllFail initPrimary).2 ≠ 3 := by
  rw [connectAllFail_init_eval]
  exact ⟨rfl, by decide⟩

/-- C8, amended: with bounded retry enabled and `maxRetryAttempts = 3`,
after the initial `connect()` and its 3 automatic retries all fail — 4
consecutive failed attempts — the manager settles disconnected with the
attempt counter at the bound, and `handle_retry`'s guard no longer issues
any automatic connect attempt; the guard only re-opens after
`refresh_state()` (or an external caller resetting state via a successful
`connect()`). -/
theorem c8_retry_exhaustion :
    (PState.connectAllFail initPrimary).2 = 4 ∧
    (PState.connectAllFail initPrimary).1.retry_attempts = 3 ∧
    (PState.connectAllFail initPrimary).1.is_connected = false ∧
    PState.handle_retry_retries (PState.connectAllFail initPrimary).1 = false ∧
    PState.handle_retry_retries
      (PState.refresh_state (PState.connectAllFail initPrimary).1) = true := by
  rw [connectAllFail_init_eval]
  exact ⟨rfl, rfl, rfl, rfl, rfl⟩

/-- A system in the failover regime: the primary has judged a window bad
(retry disabled, session torn down) and the health probe is live. -/
def failoverSys : Sys where
  primary :=
    { initPrimary with
        retry_connection := false,
        bandwidth_window := List.replicate 7 true ++ List.replicate 3 false,
        ping_task := TaskStatus.done, listen_task := TaskStatus.done }
  health := HState.connect_success initHealth

/-- C9, counterexample to the claim as stated.  With failover active,
`close()` does not terminate the HealthProbe: it invokes the probe's
`connect()` (that is the failover start path), leaving the probe's retry
flag enabled, whereas `terminate()` would clear it. -/
theorem c9_close_starts_probe_not_terminate :
    (Sys.close false failoverSys).2 = [Event.healthConnect] ∧
    (Sys.close false failoverSys).1.health.attempt_retry = true ∧
    (HState.terminate failoverSys.health).attempt_retry = false ∧
    (Sys.close false failoverSys).1.health ≠ HState.terminate failoverSys.health := by
  refine ⟨rfl, rfl, rfl, by decide⟩

/-- C9, amended: `close()` always leaves the manager disconnected (the
bounded 2 s wait for confirmed closure affects only logging — the result
is the same whether or not that wait times out), always tears down both
session tasks even if already closed, and — whenever `maintain_healthcheck`
is set (the `healthcheck_socket` attribute always exists) — starts the
HealthProbe by invoking its `connect()`; it never terminates the probe.
With `maintain_healthcheck` unset the probe is left untouched. -/
theorem c9_close_behavior (sys : Sys) (wt : Bool) :
    (Sys.close wt sys).1.primary.is_connected = false ∧
    (Sys.close wt sys).1.primary.ping_task = cancelTask sys.primary.ping_task ∧
    (Sys.close wt sys).1.primary.listen_task = cancelTask sys.primary.listen_task ∧
    Sys.close true sys = Sys.close false sys ∧
    (sys.primary.maintain_healthcheck = true →
      (Sys.close wt sys).1.health = HState.connect_entry sys.health ∧
      (Sys.close wt sys).2 = [Event.healthConnect]) ∧
    (sys.primary.maintain_healthcheck = false →
      (Sys.close wt sys).1.health = sys.health ∧
      (Sys.close wt sys).2 = []) := by
  simp only [Sys.close, PState.cleanup_tasks]
  cases hc : sys.primary.is_connected <;>
    cases hm : sys.primary.maintain_healthcheck <;>
      simp_all

/-- Witness for `c9_close_behavior` at the connected default system. -/
theorem c9_close_behavior_witness :
    connectedSys.primary.maintain_healthcheck = true ∧
    ((Sys.close false connectedSys).1.primary.is_connected = false ∧
     (Sys.close false connectedSys).1.primary.ping_task
        = cancelTask connectedSys.primary.ping_task ∧
     (Sys.close false connectedSys).1.primary.listen_task
        = cancelTask connectedSys.primary.listen_task ∧
     Sys.close true connectedSys = Sys.close false connectedSys ∧
     (connectedSys.primary.maintain_healthcheck = true →
       (Sys.close false connectedSys).1.health = HState.connect_entry connectedSys.health ∧
       (Sys.close false connectedSys).2 = [Event.healthConnect]) ∧
     (connectedSys.primary.maintain_healthcheck = false →
       (Sys.close false connectedSys).1.health = connectedSys.health ∧
       (Sys.close false connectedSys).2 = [])) :=
  ⟨rfl, c9_close_behavior connectedSys false⟩

/-- C10, confirmed: when a recorded sample makes the health probe's window
full with a verdict that is not `Healthy`, `handle_new_latency` cancels
both tasks, closes the connection and re-enters `connect()` from scratch
(whose success path resets the window to empty); the recovery callback is
invoked only on a full window whose verdict is `Healthy`. -/
theorem c10_probe_window_policy (h : HState) (res : Bool) :
    ((recordOutcome h.window_sz h.bandwidth_window res).length = h.window_sz →
     is_window_good h.window_sz h.min_good_count
        (recordOutcome h.window_sz h.bandwidth_window res) = false →
     HState.handle_new_latency res h =
       ({ h with bandwidth_window := recordOutcome h.window_sz h.bandwidth_window res,
                 ping_task := cancelTask h.ping_task,
                 listen_task := cancelTask h.listen_task,
                 is_connected := false,
                 attempt_retry := true }, [Event.healthConnect])) ∧
    ((recordOutcome h.window_sz h.bandwidth_window res).length = h.window_sz →
     is_window_good h.window_sz h.min_good_count
        (recordOutcome h.window_sz h.bandwidth_window res) = true →
     h.has_on_good_latency = true →
     HState.handle_new_latency res h =
       ({ h with bandwidth_window := recordOutcome h.window_sz h.bandwidth_window res },
        [Event.goodLatencyCallback])) ∧
    (Event.goodLatencyCallback ∈ (HState.handle_new_latency res h).2 →
     (recordOutcome h.window_sz h.bandwidth_window res).length = h.window_sz ∧
     is_window_good h.window_sz h.min_good_count
        (recordOutcome h.window_sz h.bandwidth_window res) = true) ∧
    (HState.connect_success h).bandwidth_window = [] := by
  refine ⟨?_, ?_, ?_, rfl⟩
  · intro hfull hbad
    simp only [HState.handle_new_latency, hfull, if_true, hbad, Bool.false_eq_true,
      if_false, HState.handle_bad_window, HState.cleanup_tasks, HState.close,
      HState.connect_entry]
    cases hc : h.is_connected <;> simp_all
  · intro hfull hgood hcb
    simp only [HState.handle_new_latency, hfull, if_true, hgood,
      HState.handle_good_window, hcb]
  · intro hmem
    simp only [HState.handle_new_latency] at hmem
    split at hmem
    · split at hmem
      · constructor
        · assumption
        · assumption
      · simp only [HState.handle_bad_window] at hmem
        simp at hmem
    · simp at hmem

/-- Witness for `c10_probe_window_policy` at a connected probe holding 9
good samples and recording a 10th good one (full healthy window → the
callback fires), checked against the stated equations. -/
theorem c10_probe_window_policy_witness :
    (recordOutcome 10 (List.replicate 9 false) false).length = 10 ∧
    is_window_good 10 7 (recordOutcome 10 (List.replicate 9 false) false) = true ∧
    (let h : HState :=
        { initHealth with bandwidth_window := List.replicate 9 false,
                          is_connected := true };
     ((recordOutcome h.window_sz h.bandwidth_window false).length = h.window_sz →
      is_window_good h.window_sz h.min_good_count
         (recordOutcome h.window_sz h.bandwidth_window false) = false →
      HState.handle_new_latency false h =
        ({ h with bandwidth_window := recordOutcome h.window_sz h.bandwidth_window false,
                  ping_task := cancelTask h.ping_task,
                  listen_task := cancelTask h.listen_task,
                  is_connected := false,
                  attempt_retry := true }, [Event.healthConnect])) ∧
     ((recordOutcome h.window_sz h.bandwidth_window false).length = h.window_sz →
      is_window_good h.window_sz h.min_good_count
         (recordOutcome h.window_sz h.bandwidth_window false) = true →
      h.has_on_good_latency = true →
      HState.handle_new_latency false h =
        ({ h with bandwidth_window := recordOutcome h.window_sz h.bandwidth_window false },
         [Event.goodLatencyCallback])) ∧
     (Event.goodLatencyCallback ∈ (HState.handle_new_latency false h).2 →
      (recordOutcome h.window_sz h.bandwidth_window false).length = h.window_sz ∧
      is_window_good h.window_sz h.min_good_count
         (recordOutcome h.window_sz h.bandwidth_window false) = true) ∧
     (HState.connect_success h).bandwidth_window = []) :=
  ⟨by decide, by decide,
   c10_probe_window_policy
     { initHealth with bandwidth_window := List.replicate 9 false,
                       is_connected := true } false⟩

end LatencyWS
